import Mathlib

/-!
Verification of the strategy-execution and risk engine of the `pyqt`
trading terminal.  Each Python class relevant to the checked properties
is shallowly embedded as Lean definitions: prices, volumes and balances
(Python floats) are modelled as exact rationals; Python dicts become
association lists updated in insertion order; Qt signal emissions become
explicit event lists returned by the functions that emit them.
Sources embedded here: `src/data/models.py`, `src/core/position_tracker.py`,
`src/core/candle_builder.py`, `src/core/risk_manager.py`,
`src/core/ea_manager.py`, `src/core/execution_service.py`.
-/

namespace Trading

/-- Python's `round(x, 2)` rounds half to even; this is the integer
rounding used by `round2` below. -/
def roundHalfEven (q : ℚ) : ℤ :=
  let f := ⌊q⌋
  let r := q - f
  if r < 1/2 then f
  else if 1/2 < r then f + 1
  else if f % 2 = 0 then f else f + 1

/-- Model of Python `round(x, 2)` on an exact rational value. -/
def round2 (q : ℚ) : ℚ := (roundHalfEven (q * 100) : ℚ) / 100

/-- Order side, from `data/models.py` `OrderType`. -/
inductive OrderType where
  | buy
  | sell
  | buyLimit
  | sellLimit
  | buyStop
  | sellStop
deriving DecidableEq

/-- Order lifecycle status, from `data/models.py` `OrderStatus`. -/
inductive OrderStatus where
  | pending
  | active
  | filled
  | closed
  | cancelled
  | rejected
deriving DecidableEq

/-- Trading order, from `data/models.py` `Order`.  The `open_time` /
`close_time` timestamps and the `rejection_reason` field play no role in
the verified properties and are omitted; `close_price` is `Option` to
model Python's `None`. -/
structure Order where
  ticket : ℤ
  symbol : String
  order_type : OrderType
  volume : ℚ
  open_price : ℚ
  sl : ℚ
  tp : ℚ
  status : OrderStatus
  close_price : Option ℚ
  comment : String
deriving DecidableEq

/-- Property `Order.is_buy` from `data/models.py`. -/
def Order.is_buy (o : Order) : Bool :=
  o.order_type ∈ [OrderType.buy, OrderType.buyLimit, OrderType.buyStop]

/-- Method `Order.calculate_profit(current_price)` from `data/models.py`,
with the default `pip_value = 10.0` inlined (every call site in the
repository uses the default).  The Python truthiness test
`self.close_price` is false for `None` and for `0.0`. -/
def Order.calculate_profit (o : Order) (current_price : ℚ) : ℚ :=
  let price_diff :=
    if o.status = OrderStatus.closed ∧ o.close_price ≠ none ∧ o.close_price ≠ some 0
    then o.close_price.getD 0 - o.open_price
    else current_price - o.open_price
  let d :=
    if o.order_type ∈ [OrderType.sell, OrderType.sellLimit, OrderType.sellStop]
    then -price_diff else price_diff
  round2 (d * 10000 * 10 * o.volume)

/-- Lookup in an association list, modelling Python `dict.get`. -/
def alookup {κ α : Type} [DecidableEq κ] : List (κ × α) → κ → Option α
  | [], _ => none
  | (k, v) :: t, k' => if k = k' then some v else alookup t k'

/-- Assignment in an association list, modelling Python `dict[k] = v`
(existing keys keep their position, new keys go to the end). -/
def aset {κ α : Type} [DecidableEq κ] : List (κ × α) → κ → α → List (κ × α)
  | [], k, v => [(k, v)]
  | (k0, v0) :: t, k, v => if k0 = k then (k, v) :: t else (k0, v0) :: aset t k v

/-- Deletion from an association list, modelling Python `dict.pop` /
`del dict[k]`. -/
def aerase {κ α : Type} [DecidableEq κ] : List (κ × α) → κ → List (κ × α)
  | [], _ => []
  | (k0, v0) :: t, k => if k0 = k then t else (k0, v0) :: aerase t k

/-- Trailing-stop record from `position_tracker.py` `enable_trailing_stop`:
`{"pips": ..., "best_price": ..., "is_buy": ...}`. -/
structure TrailData where
  pips : ℚ
  best_price : ℚ
  is_buy : Bool
deriving DecidableEq

/-- State of `PositionTracker` (`position_tracker.py`): the open-position
map, the closed-position history and the trailing-stop table.  The
`current_prices` cache only feeds P&L display and is omitted. -/
structure PositionTracker where
  open_positions : List (ℤ × Order)
  closed_positions : List Order
  trailing_stops : List (ℤ × TrailData)
deriving DecidableEq

/-- Method `PositionTracker.close_position` (`position_tracker.py`
lines 91-124).  Returns the new state together with the list of close
events emitted (`position_closed` / `event_bus.order_closed`, both
carrying the closed order).  A ticket absent from `open_positions` only
logs a warning and returns. -/
def close_position (s : PositionTracker) (ticket : ℤ) (price : ℚ) :
    PositionTracker × List Order :=
  match alookup s.open_positions ticket with
  | none => (s, [])
  | some o =>
    let o' : Order :=
      { o with close_price := some price, status := OrderStatus.closed }
    ({ open_positions := aerase s.open_positions ticket
       closed_positions := s.closed_positions ++ [o']
       trailing_stops := aerase s.trailing_stops ticket }, [o'])

/-- Result record of `PositionTracker.get_statistics`. -/
structure Stats where
  total_trades : ℕ
  winning_trades : ℕ
  losing_trades : ℕ
  win_rate : ℚ
  total_profit : ℚ
  avg_win : ℚ
  avg_loss : ℚ
  profit_factor : ℚ
deriving DecidableEq

/-- Method `PositionTracker.get_statistics` (`position_tracker.py`
lines 267-299); every closed order is evaluated at its own close price. -/
def get_statistics (closed : List Order) : Stats :=
  if closed.length = 0 then ⟨0, 0, 0, 0, 0, 0, 0, 0⟩
  else
    let total_trades := closed.length
    let profit := fun (o : Order) => o.calculate_profit (o.close_price.getD 0)
    let wins := closed.filter (fun o => decide (0 < profit o))
    let losses := closed.filter (fun o => decide (profit o ≤ 0))
    let total_profit := (closed.map profit).sum
    let gross_profit := if wins.length ≠ 0 then (wins.map profit).sum else 0
    let gross_loss := if losses.length ≠ 0 then |(losses.map profit).sum| else 0
    { total_trades := total_trades
      winning_trades := wins.length
      losing_trades := losses.length
      win_rate := round2 ((wins.length : ℚ) / (total_trades : ℚ) * 100)
      total_profit := round2 total_profit
      avg_win := if wins.length ≠ 0 then round2 (gross_profit / (wins.length : ℚ)) else 0
      avg_loss := if losses.length ≠ 0 then round2 (gross_loss / (losses.length : ℚ)) else 0
      profit_factor := if 0 < gross_loss then round2 (gross_profit / gross_loss) else 0 }

/-- Candle timestamp at minute resolution, mirroring the fields of a
Python `datetime` that `candle_builder.py` reads and replaces (seconds
and microseconds are always zeroed by the bucketing code). -/
structure DTime where
  day : ℕ
  hour : ℕ
  minute : ℕ
deriving DecidableEq

/-- Strict `datetime` comparison (lexicographic on day, hour, minute). -/
def DTime.ltb (a b : DTime) : Bool :=
  a.day < b.day ∨ (a.day = b.day ∧
    (a.hour < b.hour ∨ (a.hour = b.hour ∧ a.minute < b.minute)))

/-- Candle from `data/models.py` `OHLCData`; the field `open` is renamed
`open_` because `open` is a Lean keyword. -/
structure OHLCData where
  timestamp : DTime
  open_ : ℚ
  high : ℚ
  low : ℚ
  close : ℚ
  volume : ℚ
deriving DecidableEq

/-- Constructor of `OHLCData` including the `__post_init__` clamping:
`high` is raised to `max(open, close, low)` if below it, then `low` is
lowered to `min(open, close, high)` (the already-adjusted high) if above
it. -/
def mkOHLCData (timestamp : DTime) (o h l c v : ℚ) : OHLCData :=
  let h1 := if h < max o (max c l) then max o (max c l) else h
  let l1 := if min o (min c h1) < l then min o (min c h1) else l
  ⟨timestamp, o, h1, l1, c, v⟩

/-- Take-profit half of `PositionTracker._check_sl_tp_bar`
(`position_tracker.py` lines 368-379), reached only when the stop-loss
checks above it did not return. -/
def check_tp_bar (o : Order) (bar : OHLCData) : Option (ℤ × String) :=
  if 0 < o.tp ∧ o.is_buy = true ∧ o.tp ≤ bar.high then some (o.ticket, "TP_HIT_BAR")
  else if 0 < o.tp ∧ o.is_buy = false ∧ bar.low ≤ o.tp then some (o.ticket, "TP_HIT_BAR")
  else none

/-- Method `PositionTracker._check_sl_tp_bar` (`position_tracker.py`
lines 351-379).  A `some (ticket, reason)` result is the close request
issued through `execution_service.close_position(ticket, reason)`. -/
def check_sl_tp_bar (o : Order) (bar : OHLCData) : Option (ℤ × String) :=
  if 0 < o.sl ∧ o.is_buy = true ∧ bar.low ≤ o.sl then some (o.ticket, "SL_HIT_BAR")
  else if 0 < o.sl ∧ o.is_buy = false ∧ o.sl ≤ bar.high then some (o.ticket, "SL_HIT_BAR")
  else check_tp_bar o bar

/-- Method `PositionTracker.on_bar` (`position_tracker.py` lines 338-349):
every open position whose symbol matches is run through the bar-level
SL/TP check; the result is the list of issued close requests. -/
def on_bar (s : PositionTracker) (bar : OHLCData) (symbol_name : String) :
    List (ℤ × String) :=
  (s.open_positions.filter (fun p => p.2.symbol == symbol_name)).filterMap
    (fun p => check_sl_tp_bar p.2 bar)

/-- Method `PositionTracker._check_sl_tp` (`position_tracker.py`
lines 381-400): tick-level SL/TP check at a single current price. -/
def check_sl_tp (o : Order) (current_price : ℚ) : Option (ℤ × String) :=
  if 0 < o.sl ∧ ((o.is_buy = true ∧ current_price ≤ o.sl) ∨
      (o.is_buy = false ∧ o.sl ≤ current_price))
  then some (o.ticket, "SL_HIT")
  else if 0 < o.tp ∧ ((o.is_buy = true ∧ o.tp ≤ current_price) ∨
      (o.is_buy = false ∧ current_price ≤ o.tp))
  then some (o.ticket, "TP_HIT")
  else none

/-- Live quote object as delivered to `PositionTracker.on_tick` and
`CandleBuilder.process_tick` by the broker feed: instrument name, bid,
ask and last trade price. -/
structure Symbol where
  name : String
  bid : ℚ
  ask : ℚ
  last : ℚ
deriving DecidableEq

/-- Close requests issued by the loop body of `PositionTracker.on_tick`
over a snapshot of the open positions. -/
def closes_aux : List (ℤ × Order) → String → ℚ → List (ℤ × String)
  | [], _, _ => []
  | (_, o) :: t, nm, p =>
    if o.symbol = nm then
      match check_sl_tp o p with
      | some r => r :: closes_aux t nm p
      | none => closes_aux t nm p
    else closes_aux t nm p

/-- Close requests issued by `PositionTracker.on_tick`
(`position_tracker.py` lines 315-336).  The guard
`if not current_price: return` drops a zero last price; every matching
position is then checked at `symbol.last`.  (The trailing-stop updates
also evaluated there never issue close requests and are modelled
separately by `update_trailing_stops`.) -/
def on_tick_closes (positions : List (ℤ × Order)) (symbol : Symbol) :
    List (ℤ × String) :=
  if symbol.last = 0 then []
  else closes_aux positions symbol.name symbol.last

/-- Loop body of `PositionTracker.update_trailing_stops`
(`position_tracker.py` lines 225-263) for one trailing record, given the
matching order's current stop `sl`: returns the updated record and the
emitted new stop-loss value, if any (`pip_value = 0.0001`). -/
def trail_step (d : TrailData) (sl : ℚ) (current_price : ℚ) :
    TrailData × Option ℚ :=
  if d.is_buy then
    let best := if d.best_price < current_price then current_price else d.best_price
    let new_sl := best - d.pips * 0.0001
    ({ d with best_price := best }, if sl < new_sl then some new_sl else none)
  else
    let best := if current_price < d.best_price then current_price else d.best_price
    let new_sl := best + d.pips * 0.0001
    ({ d with best_price := best }, if new_sl < sl ∨ sl = 0 then some new_sl else none)

/-- Method `PositionTracker.update_trailing_stops` (`position_tracker.py`
lines 212-265): iterates the trailing-stop table, skips tickets without a
matching open position on the given symbol, and otherwise applies
`trail_step`.  Returns the updated table and the emitted
`(ticket, new_sl)` updates in iteration order. -/
def update_trailing_stops (stops : List (ℤ × TrailData))
    (positions : List (ℤ × Order)) (symbol : String) (current_price : ℚ) :
    List (ℤ × TrailData) × List (ℤ × ℚ) :=
  match stops with
  | [] => ([], [])
  | (ticket, d) :: t =>
    let rest := update_trailing_stops t positions symbol current_price
    match alookup positions ticket with
    | none => ((ticket, d) :: rest.1, rest.2)
    | some o =>
      if o.symbol = symbol then
        let r := trail_step d o.sl current_price
        ((ticket, r.1) :: rest.1,
          match r.2 with
          | some v => (ticket, v) :: rest.2
          | none => rest.2)
      else ((ticket, d) :: rest.1, rest.2)

/-- Successive `update_trailing_stops` calls for one position (stop `sl`
fixed: the tracker never mutates `order.sl` itself): threads the trailing
record through a list of prices and collects every emitted stop value. -/
def trail_run (d : TrailData) (sl : ℚ) : List ℚ → TrailData × List ℚ
  | [] => (d, [])
  | p :: ps =>
    let r := trail_step d sl p
    let rest := trail_run r.1 sl ps
    (rest.1,
      match r.2 with
      | some v => v :: rest.2
      | none => rest.2)

/-- Timeframe table of `CandleBuilder` (`candle_builder.py` lines 30-38),
in minutes. -/
def timeframes : List (String × ℕ) :=
  [("M1", 1), ("M5", 5), ("M15", 15), ("M30", 30),
   ("H1", 60), ("H4", 240), ("D1", 1440)]

/-- Method `CandleBuilder._get_candle_start_time` (`candle_builder.py`
lines 92-115): floors the current time to the bucket boundary of the
timeframe. -/
def candle_start_time (t : DTime) (minutes : ℕ) : DTime :=
  if minutes < 60 then
    ⟨t.day, t.hour, t.minute / minutes * minutes⟩
  else if minutes < 1440 then
    let hours := minutes / 60
    ⟨t.day, t.hour / hours * hours, 0⟩
  else
    ⟨t.day, 0, 0⟩

/-- Per-timeframe step of `CandleBuilder.process_tick` (`candle_builder.py`
lines 59-90), given the bucket start `bstart` of the tick.  The state is
the current candle paired with its bucket start (the code's
`current_candles` and `last_candle_time` entries, which are always
created and replaced together); the second component lists the candles
sealed by this tick (emitted via `event_bus.candle_updated`). -/
def process_tick_tf (st : Option (OHLCData × DTime)) (price : ℚ)
    (bstart : DTime) : (OHLCData × DTime) × List OHLCData :=
  match st with
  | none => ((mkOHLCData bstart price price price price 0, bstart), [])
  | some (c, lastT) =>
    if DTime.ltb lastT bstart then
      ((mkOHLCData bstart price price price price 0, bstart), [c])
    else
      let c2 : OHLCData :=
        { c with high := max c.high price, low := min c.low price, close := price }
      ((c2, lastT), [])

/-- Method `CandleBuilder.process_tick` (`candle_builder.py` lines 40-90)
for one symbol, over its timeframe-indexed state.  The guard
`if not symbol.last or symbol.last == 0: return` drops exactly the ticks
whose last price is zero (or missing).  Emitted candle-close events are
tagged with their timeframe name. -/
def process_tick (st : List (String × (OHLCData × DTime))) (last : ℚ)
    (now : DTime) :
    List (String × (OHLCData × DTime)) × List (String × OHLCData) :=
  if last = 0 then (st, [])
  else
    timeframes.foldl
      (fun acc p =>
        let bstart := candle_start_time now p.2
        let r := process_tick_tf (alookup acc.1 p.1) last bstart
        (aset acc.1 p.1 r.1, acc.2 ++ r.2.map (fun c => (p.1, c))))
      (st, [])

/-- Strategy configuration fields of `data/models.py` `EAConfig` used by
`RiskManager.calculate_position_size`. -/
structure EAConfig where
  lot_size : ℚ
  risk_percent : ℚ
  use_dynamic_sizing : Bool
deriving DecidableEq

/-- Method `RiskManager.calculate_position_size` (`risk_manager.py`
lines 65-112); `account_balance` is the manager's balance field. -/
def calculate_position_size (account_balance : ℚ) (config : EAConfig)
    (entry_price stop_loss : ℚ) : ℚ :=
  if config.use_dynamic_sizing then
    let risk_amount := account_balance * (config.risk_percent / 100)
    let sl_pips := |entry_price - stop_loss| * 10000
    if sl_pips = 0 then config.lot_size
    else
      let pip_value : ℚ := 10
      max 0.01 (round2 (risk_amount / (sl_pips * pip_value)))
  else config.lot_size

/-- State of `EAManager` (`ea_manager.py`): the registered names (the
dict keys of `self.eas` — the EA instances themselves are irrelevant to
the checked properties), the running-name list and the concurrency cap. -/
structure EAManagerState where
  eas : List String
  running_eas : List String
  max_concurrent_eas : ℕ
deriving DecidableEq

/-- Initial `EAManager` state (`ea_manager.py` lines 38-52): empty
registry, default cap 5. -/
def init_ea_manager : EAManagerState := ⟨[], [], 5⟩

/-- Method `EAManager.register_ea` (`ea_manager.py` lines 54-77). -/
def register_ea (s : EAManagerState) (n : String) : EAManagerState × Bool :=
  if n ∈ s.eas then (s, false)
  else ({ s with eas := s.eas ++ [n] }, true)

/-- Method `EAManager.start_ea` (`ea_manager.py` lines 111-143); the
`ea.start()` call is modelled as always succeeding (its failure path
also returns `False` without touching `running_eas`). -/
def start_ea (s : EAManagerState) (n : String) : EAManagerState × Bool :=
  if n ∉ s.eas then (s, false)
  else if n ∈ s.running_eas then (s, false)
  else if s.max_concurrent_eas ≤ s.running_eas.length then (s, false)
  else ({ s with running_eas := s.running_eas ++ [n] }, true)

/-- Method `EAManager.stop_ea` (`ea_manager.py` lines 145-172). -/
def stop_ea (s : EAManagerState) (n : String) : EAManagerState × Bool :=
  if n ∉ s.eas then (s, false)
  else if n ∉ s.running_eas then (s, false)
  else ({ s with running_eas := s.running_eas.erase n }, true)

/-- Method `EAManager.unregister_ea` (`ea_manager.py` lines 79-109):
stops the EA first when it is running. -/
def unregister_ea (s : EAManagerState) (n : String) : EAManagerState × Bool :=
  if n ∉ s.eas then (s, false)
  else
    let s1 := if n ∈ s.running_eas then (stop_ea s n).1 else s
    ({ s1 with eas := s1.eas.erase n }, true)

/-- Method `EAManager.set_max_concurrent_eas` (`ea_manager.py`
lines 305-308): clamps the new cap to at least 1 and keeps
`running_eas` untouched. -/
def set_max_concurrent_eas (s : EAManagerState) (limit : ℕ) : EAManagerState :=
  { s with max_concurrent_eas := max 1 limit }

/-- Public mutating operations of `EAManager` (pause/resume do not touch
the registry, the running list or the cap and are omitted). -/
inductive MOp where
  | register (n : String)
  | unregister (n : String)
  | start (n : String)
  | stop (n : String)
  | setMax (k : ℕ)
deriving DecidableEq

/-- Test for the cap-changing operation. -/
def MOp.is_set_max : MOp → Bool
  | .setMax _ => true
  | _ => false

/-- State transition of one `EAManager` operation. -/
def apply_op (s : EAManagerState) : MOp → EAManagerState
  | .register n => (register_ea s n).1
  | .unregister n => (unregister_ea s n).1
  | .start n => (start_ea s n).1
  | .stop n => (stop_ea s n).1
  | .setMax k => set_max_concurrent_eas s k

/-- Run of a sequence of `EAManager` operations. -/
def run_ops (s : EAManagerState) (ops : List MOp) : EAManagerState :=
  ops.foldl apply_op s

/-- Trading signal fields of `data/models.py` `EASignal` used by
`ExecutionService`. -/
structure EASignal where
  ea_name : String
  signal_type : String
  symbol : String
  volume : ℚ
  price : ℚ
  stop_loss : ℚ
  take_profit : ℚ
  reason : String
deriving DecidableEq

/-- Rejection reasons emitted through `ExecutionService.order_rejected`
(`execution_service.py`), one constructor per distinct message. -/
inductive RejectReason where
  | noBroker
  | invalidType (t : String)
  | noSymbol
  | invalidVolume (v : ℚ)
  | invalidPrice (p : ℚ)
  | placementFailed
deriving DecidableEq

/-- Message text of each rejection, as formatted by
`execution_service.py` (numeric payloads up to float formatting). -/
def RejectReason.text : RejectReason → String
  | .noBroker => "No broker connection"
  | .invalidType t => "Invalid signal type: " ++ t
  | .noSymbol => "No symbol specified"
  | .invalidVolume v => "Invalid volume: " ++ toString v
  | .invalidPrice p => "Invalid price: " ++ toString p
  | .placementFailed => "Order placement failed"

/-- Signal types accepted by `ExecutionService._validate_signal`. -/
def valid_types : List String := ["BUY", "SELL", "CLOSE_BUY", "CLOSE_SELL"]

/-- Method `ExecutionService._validate_signal` (`execution_service.py`
lines 112-146): `none` means valid, otherwise the emitted rejection.
The Python truthiness test `not signal.symbol` is the empty string. -/
def validate_signal (s : EASignal) : Option RejectReason :=
  if s.signal_type ∉ valid_types then some (RejectReason.invalidType s.signal_type)
  else if s.symbol = "" then some RejectReason.noSymbol
  else if s.volume ≤ 0 then some (RejectReason.invalidVolume s.volume)
  else if s.price ≤ 0 then some (RejectReason.invalidPrice s.price)
  else none

/-- Method `ExecutionService._signal_to_order` (`execution_service.py`
lines 148-182); `ticket` stands for the generated ticket number. -/
def signal_to_order (s : EASignal) (ticket : ℤ) : Order :=
  let order_type :=
    if s.signal_type = "BUY" then OrderType.buy
    else if s.signal_type = "SELL" then OrderType.sell
    else if s.signal_type = "CLOSE_BUY" then OrderType.sell
    else if s.signal_type = "CLOSE_SELL" then OrderType.buy
    else OrderType.buy
  { ticket := ticket
    symbol := s.symbol
    order_type := order_type
    volume := s.volume
    open_price := s.price
    sl := s.stop_loss
    tp := s.take_profit
    status := OrderStatus.pending
    close_price := none
    comment := s.ea_name ++ " - " ++ s.reason }

/-- State of `ExecutionService`: whether a broker object has been set,
and the paper-trading flag (default on). -/
structure ExecState where
  broker : Bool
  paper_trading : Bool
deriving DecidableEq

/-- Method `ExecutionService._place_order_with_retry`
(`execution_service.py` lines 184-214): up to 3 attempts; `place i` is
the broker's answer to attempt `i` (`none` covers failure and raised
exceptions). -/
def place_with_retry (place : ℕ → Option Order) : Option Order :=
  match place 0 with
  | some o => some o
  | none =>
    match place 1 with
    | some o => some o
    | none => place 2

/-- Method `ExecutionService.execute_signal` (`execution_service.py`
lines 66-110): returns the produced order (if any) together with the
emitted rejection events. -/
def execute_signal (st : ExecState) (place : ℕ → Option Order)
    (ticket : ℤ) (s : EASignal) : Option Order × List RejectReason :=
  if st.broker = false then (none, [RejectReason.noBroker])
  else
    match validate_signal s with
    | some r => (none, [r])
    | none =>
      let order := signal_to_order s ticket
      if st.paper_trading then
        (some { order with status := OrderStatus.active }, [])
      else
        match place_with_retry place with
        | some o => (some o, [])
        | none => (none, [RejectReason.placementFailed])

/-- Predicate tying a rejection to the failing validation check of the
signal it was emitted for. -/
def names_failing : RejectReason → EASignal → Prop
  | .invalidType t, s => t = s.signal_type ∧ s.signal_type ∉ valid_types
  | .noSymbol, s => s.symbol = ""
  | .invalidVolume v, s => v = s.volume ∧ s.volume ≤ 0
  | .invalidPrice p, s => p = s.price ∧ s.price ≤ 0
  | _, _ => False

/-- Example long position for the bar-level SL/TP scenario:
entry 100, stop-loss 98, no take-profit. -/
def c1_order : Order :=
  ⟨1, "EURUSD", OrderType.buy, 1, 100, 98, 0, OrderStatus.active, none, ""⟩

/-- Example sealed candle with low 97 and high 101. -/
def c1_bar : OHLCData := ⟨⟨0, 0, 0⟩, 100, 101, 97, 100, 0⟩

/-- Example open long order used in tracker-state examples. -/
def w2_order : Order :=
  ⟨1, "EURUSD", OrderType.buy, 1, 100, 98, 0, OrderStatus.active, none, ""⟩

/-- Example closed order with realized profit. -/
def w2_closed : Order :=
  ⟨2, "EURUSD", OrderType.buy, 1, 100, 0, 0, OrderStatus.closed, some 101, ""⟩

/-- Example tracker state holding an open position (ticket 1), one
closed position and one trailing-stop record. -/
def w2_state : PositionTracker :=
  { open_positions := [(1, w2_order)]
    closed_positions := [w2_closed]
    trailing_stops := [(1, ⟨10, 100, true⟩)] }

/-- Example long position with stop-loss 2 for the tick-path SL check. -/
def c3_order : Order :=
  ⟨7, "EURUSD", OrderType.buy, 1, 3, 2, 0, OrderStatus.active, none, ""⟩

/-- Example quote whose bid (1) is at or below the stop 2 while its
last trade price (3) is above it. -/
def c3_tick : Symbol := ⟨"EURUSD", 1, 4, 3⟩

/-- Example trailing record: long, 10 pips, best price seeded at 1. -/
def c4_trail : TrailData := ⟨10, 1, true⟩

/-- Example single-bucket candle state for the M5 scenario. -/
def c5_candle : OHLCData := ⟨⟨0, 0, 0⟩, 100, 100, 100, 100, 0⟩

/-- Builder state after ticks at prices 100, 101, 99, 102 at minutes
0, 1, 2, 3 of the same five-minute window. -/
def c5_state : List (String × (OHLCData × DTime)) :=
  (process_tick
    (process_tick
      (process_tick
        (process_tick [] 100 ⟨0, 0, 0⟩).1 101 ⟨0, 0, 1⟩).1 99 ⟨0, 0, 2⟩).1
    102 ⟨0, 0, 3⟩).1

/-- Example configuration with dynamic sizing: fixed lot 1, risk 2%. -/
def c6_config : EAConfig := ⟨1, 2, true⟩

/-- Operation sequence that lowers the concurrency cap below the number
of running strategies. -/
def c7_ops : List MOp :=
  [MOp.register ("A"), MOp.register ("B"), MOp.start ("A"), MOp.start ("B"),
   MOp.setMax 1]

/-- Cap-respecting operation sequence without any cap change. -/
def c7_ops_w : List MOp := [MOp.register ("A"), MOp.start ("A")]

/-- Manager state at the default cap 5 with five running strategies and
a sixth one registered. -/
def c7_full : EAManagerState :=
  ⟨["A", "B", "C", "D", "E", "F"], ["A", "B", "C", "D", "E"], 5⟩

/-- Example signal with volume 0, every other field valid. -/
def c8_signal : EASignal := ⟨"MyEA", "BUY", "EURUSD", 0, 1, 0, 0, "entry"⟩

/-- Example signal with volume 0, used against a missing broker. -/
def c10_signal : EASignal := ⟨"MyEA", "BUY", "EURUSD", 0, 1, 0, 0, "entry"⟩

/-- C1: bar-level SL/TP safety net.  For a long position with `sl > 0`
the close request `SL_HIT_BAR` is issued exactly when `low ≤ sl`; the
`TP_HIT_BAR` request is issued exactly when `tp > 0`, `high ≥ tp` and the
stop-loss did not already trigger (the SL check runs first).  For a short
position the comparisons invert.  `on_bar` issues these requests for
every open position whose symbol matches the candle. -/
theorem c1_bar_safety_net (o : Order) (bar : OHLCData) (s : PositionTracker)
    (nm : String) :
    (o.is_buy = true →
      ((check_sl_tp_bar o bar = some (o.ticket, "SL_HIT_BAR") ↔
        0 < o.sl ∧ bar.low ≤ o.sl) ∧
       (check_sl_tp_bar o bar = some (o.ticket, "TP_HIT_BAR") ↔
        ¬(0 < o.sl ∧ bar.low ≤ o.sl) ∧ 0 < o.tp ∧ o.tp ≤ bar.high))) ∧
    (o.is_buy = false →
      ((check_sl_tp_bar o bar = some (o.ticket, "SL_HIT_BAR") ↔
        0 < o.sl ∧ o.sl ≤ bar.high) ∧
       (check_sl_tp_bar o bar = some (o.ticket, "TP_HIT_BAR") ↔
        ¬(0 < o.sl ∧ o.sl ≤ bar.high) ∧ 0 < o.tp ∧ bar.low ≤ o.tp))) ∧
    (∀ (t : ℤ) (o' : Order) (r : ℤ × String),
      (t, o') ∈ s.open_positions → o'.symbol = nm →
      check_sl_tp_bar o' bar = some r → r ∈ on_bar s bar nm) := by
  refine ⟨?_, ?_, ?_⟩
  · intro hb
    constructor
    · unfold check_sl_tp_bar check_tp_bar
      simp only [hb]
      split_ifs <;> simp_all
    · unfold check_sl_tp_bar check_tp_bar
      simp only [hb]
      split_ifs <;> simp_all
  · intro hb
    constructor
    · unfold check_sl_tp_bar check_tp_bar
      simp only [hb]
      split_ifs <;> simp_all
    · unfold check_sl_tp_bar check_tp_bar
      simp only [hb]
      split_ifs <;> simp_all
  · intro t o' r hmem hsym hchk
    unfold on_bar
    rw [List.mem_filterMap]
    refine ⟨(t, o'), ?_, hchk⟩
    rw [List.mem_filter]
    exact ⟨hmem, by simp [hsym]⟩

/-- Witness for C1: the long position with entry 100, sl 98 and a candle
with low 97 yields a close request with reason SL_HIT_BAR. -/
theorem c1_witness :
    check_sl_tp_bar c1_order c1_bar = some (1, "SL_HIT_BAR") :=
  ((c1_bar_safety_net c1_order c1_bar ⟨[], [], []⟩ ("EURUSD")).1
    (by decide)).1.mpr (by decide)

/-- C2: closing a ticket that is no longer in the open-position map is a
no-op: the whole tracker state (open positions, closed history, trailing
table) is unchanged, `get_statistics` is unchanged, and no close event is
emitted. -/
theorem c2_no_double_close (s : PositionTracker) (ticket : ℤ) (price : ℚ)
    (h : alookup s.open_positions ticket = none) :
    close_position s ticket price = (s, []) ∧
    (close_position s ticket price).1.open_positions = s.open_positions ∧
    (close_position s ticket price).1.closed_positions = s.closed_positions ∧
    (close_position s ticket price).1.trailing_stops = s.trailing_stops ∧
    get_statistics (close_position s ticket price).1.closed_positions =
      get_statistics s.closed_positions ∧
    (close_position s ticket price).2 = [] := by
  have h1 : close_position s ticket price = (s, []) := by
    unfold close_position
    rw [h]
  refine ⟨h1, ?_, ?_, ?_, ?_, ?_⟩ <;> rw [h1]

/-- Witness for C2: on a concrete tracker state with positions, history
and a trailing record, closing the absent ticket 42 changes nothing. -/
theorem c2_witness :
    alookup w2_state.open_positions 42 = none ∧
    close_position w2_state 42 5 = (w2_state, []) ∧
    get_statistics (close_position w2_state 42 5).1.closed_positions =
      get_statistics w2_state.closed_positions := by
  have h := c2_no_double_close w2_state 42 5 (by decide)
  exact ⟨by decide, h.1, h.2.2.2.2.1⟩

/-- Counterexample for C3 as stated: a long open position whose stop-loss
(3/2) is at or above the tick's bid (1), so the claimed bid-based check
would close it, yet `on_tick` issues no close request because the code
compares against the last trade price (2), which is above the stop. -/
theorem c3_counterexample :
    c3_order.is_buy = true ∧ 0 < c3_order.sl ∧ c3_tick.bid ≤ c3_order.sl ∧
    c3_order.symbol = c3_tick.name ∧ c3_tick.last ≠ 0 ∧
    on_tick_closes [(7, c3_order)] c3_tick = [] := by decide

/-- C3 (amended): the tick path evaluates SL/TP for every position —
long and short alike — against the tick's last trade price, not bid/ask:
`check_sl_tp` triggers on the thresholds at that single price (SL first),
and the close requests of `on_tick` depend only on the tick's name and
last price. -/
theorem c3_tick_uses_last (o : Order) (p : ℚ) (positions : List (ℤ × Order))
    (t1 t2 : Symbol) :
    (check_sl_tp o p = some (o.ticket, "SL_HIT") ↔
      0 < o.sl ∧ ((o.is_buy = true ∧ p ≤ o.sl) ∨ (o.is_buy = false ∧ o.sl ≤ p))) ∧
    (check_sl_tp o p = some (o.ticket, "TP_HIT") ↔
      ¬(0 < o.sl ∧ ((o.is_buy = true ∧ p ≤ o.sl) ∨ (o.is_buy = false ∧ o.sl ≤ p))) ∧
      0 < o.tp ∧ ((o.is_buy = true ∧ o.tp ≤ p) ∨ (o.is_buy = false ∧ p ≤ o.tp))) ∧
    (t1.name = t2.name → t1.last = t2.last →
      on_tick_closes positions t1 = on_tick_closes positions t2) ∧
    (t1.last ≠ 0 →
      on_tick_closes positions t1 = closes_aux positions t1.name t1.last) := by
  refine ⟨?_, ?_, ?_, ?_⟩
  · unfold check_sl_tp
    split_ifs <;> simp_all
  · unfold check_sl_tp
    split_ifs <;> simp_all
  · intro h1 h2
    unfold on_tick_closes
    rw [h1, h2]
  · intro h
    unfold on_tick_closes
    rw [if_neg h]

/-- Witness for C3 (amended): the same long position closed at last
price 1, which is at or below its stop 3/2. -/
theorem c3_witness :
    check_sl_tp c3_order 1 = some (c3_order.ticket, "SL_HIT") :=
  (c3_tick_uses_last c3_order 1 [] c3_tick c3_tick).1.mpr (by decide)

/-- C5: candle bucket semantics.  A tick whose bucket start equals the
open bucket's start updates the candle in place (`high = max`,
`low = min`, `close = price`, `open` and timestamp unchanged, no event);
a tick whose bucket start is strictly greater seals the previous candle
(emitting exactly it) and opens a fresh bucket with
`open = high = low = close = price` and `volume = 0`. -/
theorem c5_bucket_semantics (c : OHLCData) (lastT : DTime) (price : ℚ)
    (bstart : DTime) :
    (bstart = lastT →
      process_tick_tf (some (c, lastT)) price bstart =
        ((⟨c.timestamp, c.open_, max c.high price, min c.low price, price,
            c.volume⟩, lastT), [])) ∧
    (DTime.ltb lastT bstart = true →
      process_tick_tf (some (c, lastT)) price bstart =
        ((mkOHLCData bstart price price price price 0, bstart), [c]) ∧
      mkOHLCData bstart price price price price 0 =
        ⟨bstart, price, price, price, price, 0⟩) := by
  constructor
  · intro h
    subst h
    have hlt : DTime.ltb bstart bstart = false := by
      simp [DTime.ltb]
    simp [process_tick_tf, hlt]
  · intro h
    constructor
    · simp [process_tick_tf, h]
    · simp [mkOHLCData]

/-- Witness for C5: an in-bucket tick at 101 updates the example candle
in place, and the scenario ticks [100, 101, 99, 102] inside one M5
window leave an M5 candle open=100, high=102, low=99, close=102. -/
theorem c5_witness :
    process_tick_tf (some (c5_candle, (⟨0, 0, 0⟩ : DTime))) 101 ⟨0, 0, 0⟩ =
      ((⟨⟨0, 0, 0⟩, 100, 101, 100, 101, 0⟩, ⟨0, 0, 0⟩), []) ∧
    alookup c5_state ("M5") =
      some (⟨⟨0, 0, 0⟩, 100, 102, 99, 102, 0⟩, ⟨0, 0, 0⟩) := by
  constructor
  · rw [(c5_bucket_semantics c5_candle ⟨0, 0, 0⟩ 101 ⟨0, 0, 0⟩).1 rfl]
    decide
  · decide

/-- C6: position sizing.  With dynamic sizing on and a nonzero stop
distance, the lot is `max(0.01, round2(balance·risk%/100 /
(|entry−sl|·10000·10)))`; a zero stop distance falls back to the fixed
lot without dividing, and with dynamic sizing off the fixed lot is
returned. -/
theorem c6_position_sizing (account_balance : ℚ) (config : EAConfig)
    (entry_price stop_loss : ℚ) :
    (config.use_dynamic_sizing = true →
      (|entry_price - stop_loss| ≠ 0 →
        calculate_position_size account_balance config entry_price stop_loss =
          max 0.01 (round2 (account_balance * (config.risk_percent / 100) /
            (|entry_price - stop_loss| * 10000 * 10)))) ∧
      (|entry_price - stop_loss| = 0 →
        calculate_position_size account_balance config entry_price stop_loss =
          config.lot_size)) ∧
    (config.use_dynamic_sizing = false →
      calculate_position_size account_balance config entry_price stop_loss =
        config.lot_size) := by
  constructor
  · intro hd
    constructor
    · intro hne
      have hz : ¬(|entry_price - stop_loss| * 10000 = 0) := by
        simp [mul_eq_zero, hne]
      unfold calculate_position_size
      simp only [hd, if_true]
      rw [if_neg hz]
    · intro he
      unfold calculate_position_size
      simp only [hd, if_true]
      rw [if_pos (by rw [he, zero_mul])]
  · intro hd
    unfold calculate_position_size
    simp [hd]

/-- Witness for C6: balance 10000, risk 2%, entry 100, stop 99 sizes to
the minimum lot 0.01. -/
theorem c6_witness :
    calculate_position_size 10000 c6_config 100 99 = 0.01 := by
  rw [((c6_position_sizing 10000 c6_config 100 99).1 rfl).1 (by norm_num)]
  norm_num [c6_config, round2, roundHalfEven]

/-- Erasing an element never lengthens a list. -/
theorem length_erase_le {α : Type} [DecidableEq α] (a : α) (l : List α) :
    (l.erase a).length ≤ l.length :=
  (l.erase_sublist a).length_le

/-- Every cap-free manager operation preserves the bound of running
strategies by the concurrency cap. -/
theorem apply_op_cap (s : EAManagerState) (op : MOp)
    (hop : MOp.is_set_max op = false)
    (h : s.running_eas.length ≤ s.max_concurrent_eas) :
    (apply_op s op).running_eas.length ≤ (apply_op s op).max_concurrent_eas := by
  cases op with
  | register n =>
    simp only [apply_op, register_ea]
    split_ifs <;> simpa
  | unregister n =>
    simp only [apply_op, unregister_ea, stop_ea]
    split_ifs <;>
      first
        | simpa
        | simpa using le_trans (length_erase_le n s.running_eas) h
  | start n =>
    simp only [apply_op, start_ea]
    split_ifs <;> simp_all
    omega
  | stop n =>
    simp only [apply_op, stop_ea]
    split_ifs <;>
      first
        | simpa
        | simpa using le_trans (length_erase_le n s.running_eas) h
  | setMax k => simp [MOp.is_set_max] at hop

/-- Any run of cap-free manager operations preserves the concurrency
bound. -/
theorem run_ops_cap (ops : List MOp) (s : EAManagerState)
    (hops : ∀ op ∈ ops, MOp.is_set_max op = false)
    (h : s.running_eas.length ≤ s.max_concurrent_eas) :
    (run_ops s ops).running_eas.length ≤ (run_ops s ops).max_concurrent_eas := by
  induction ops generalizing s with
  | nil => exact h
  | cons op t ih =>
    simp only [run_ops, List.foldl_cons] at ih ⊢
    exact ih (apply_op s op) (fun o ho => hops o (List.mem_cons_of_mem _ ho))
      (apply_op_cap s op (hops op (List.mem_cons_self _ _)) h)

/-- Counterexample for C7 as stated: registering and starting two
strategies at the default cap and then lowering the cap to 1 via
`set_max_concurrent_eas` reaches a state where the number of running
strategies (2) exceeds the cap (1). -/
theorem c7_counterexample :
    (run_ops init_ea_manager c7_ops).max_concurrent_eas <
      (run_ops init_ea_manager c7_ops).running_eas.length := by decide

/-- C7 (amended): in every state reachable from the initial manager by
register/unregister/start/stop operations (no cap change), the number of
running strategies never exceeds `max_concurrent_eas`; and `start_ea`
returns `False` and leaves the state unchanged whenever the name is not
registered, the strategy is already running, or the running count has
reached the cap — so the (cap+1)-th concurrent start always fails.
Lowering the cap below the current running count, however, produces a
state violating the claimed invariant (see the counterexample). -/
theorem c7_cap_invariant (ops : List MOp) (s : EAManagerState) (n : String) :
    ((∀ op ∈ ops, MOp.is_set_max op = false) →
      (run_ops init_ea_manager ops).running_eas.length ≤
        (run_ops init_ea_manager ops).max_concurrent_eas) ∧
    (n ∉ s.eas ∨ n ∈ s.running_eas ∨
        s.max_concurrent_eas ≤ s.running_eas.length →
      start_ea s n = (s, false)) := by
  constructor
  · intro hops
    exact run_ops_cap ops init_ea_manager hops (by decide)
  · intro h
    unfold start_ea
    split_ifs <;>
      first
        | rfl
        | (exfalso; rcases h with h | h | h <;> simp_all)

/-- Witness for C7 (amended): a concrete cap-free run respects the cap,
and with five strategies running at cap 5 the sixth start call fails. -/
theorem c7_witness :
    (run_ops init_ea_manager c7_ops_w).running_eas.length ≤
      (run_ops init_ea_manager c7_ops_w).max_concurrent_eas ∧
    start_ea c7_full ("F") = (c7_full, false) := by
  have h := c7_cap_invariant c7_ops_w c7_full ("F")
  exact ⟨h.1 (by decide), h.2 (by decide)⟩

/-- Validation order of `_validate_signal`: each conjunction of the
earlier checks passing and one check failing pins down the emitted
rejection. -/
theorem validate_signal_cases (s : EASignal) :
    (s.signal_type ∉ valid_types →
      validate_signal s = some (RejectReason.invalidType s.signal_type)) ∧
    (s.signal_type ∈ valid_types → s.symbol = "" →
      validate_signal s = some RejectReason.noSymbol) ∧
    (s.signal_type ∈ valid_types → s.symbol ≠ "" → s.volume ≤ 0 →
      validate_signal s = some (RejectReason.invalidVolume s.volume)) ∧
    (s.signal_type ∈ valid_types → s.symbol ≠ "" → ¬s.volume ≤ 0 →
      s.price ≤ 0 →
      validate_signal s = some (RejectReason.invalidPrice s.price)) := by
  unfold validate_signal
  split_ifs <;> simp_all

/-- With a broker present, a failed validation short-circuits
`execute_signal` into exactly the rejection produced by the validator. -/
theorem execute_signal_rejects (st : ExecState) (place : ℕ → Option Order)
    (ticket : ℤ) (s : EASignal) (r : RejectReason) (hb : st.broker = true)
    (h : validate_signal s = some r) :
    execute_signal st place ticket s = (none, [r]) := by
  simp [execute_signal, hb, h]

/-- C8: with a broker set, a signal failing any of the four validation
checks (type, symbol, volume, price) produces no order and exactly one
rejection whose reason names a failing check; in particular, with type
and symbol valid, a non-positive volume yields exactly the
invalid-volume rejection, before any order is built. -/
theorem c8_signal_rejection (st : ExecState) (place : ℕ → Option Order)
    (ticket : ℤ) (s : EASignal) (hb : st.broker = true) :
    (s.signal_type ∉ valid_types ∨ s.symbol = "" ∨ s.volume ≤ 0 ∨
        s.price ≤ 0 →
      (execute_signal st place ticket s).1 = none ∧
      ∃ r, (execute_signal st place ticket s).2 = [r] ∧ names_failing r s) ∧
    (s.signal_type ∈ valid_types → s.symbol ≠ "" → s.volume ≤ 0 →
      execute_signal st place ticket s =
        (none, [RejectReason.invalidVolume s.volume])) := by
  constructor
  · intro h
    have hv : ∃ r, validate_signal s = some r ∧ names_failing r s := by
      by_cases h1 : s.signal_type ∈ valid_types
      · by_cases h2 : s.symbol = ""
        · exact ⟨_, (validate_signal_cases s).2.1 h1 h2, h2⟩
        · by_cases h3 : s.volume ≤ 0
          · exact ⟨_, (validate_signal_cases s).2.2.1 h1 h2 h3, rfl, h3⟩
          · have h4 : s.price ≤ 0 := by tauto
            exact ⟨_, (validate_signal_cases s).2.2.2 h1 h2 h3 h4, rfl, h4⟩
      · exact ⟨_, (validate_signal_cases s).1 h1, rfl, h1⟩
    obtain ⟨r, hr, hn⟩ := hv
    have he := execute_signal_rejects st place ticket s r hb hr
    exact ⟨by rw [he], r, by rw [he], hn⟩
  · intro h1 h2 h3
    exact execute_signal_rejects st place ticket s _ hb
      ((validate_signal_cases s).2.2.1 h1 h2 h3)

/-- Witness for C8: a volume-0 signal with broker set and paper trading
on is rejected with the invalid-volume reason and yields no order. -/
theorem c8_witness :
    execute_signal ⟨true, true⟩ (fun _ => none) 1 c8_signal =
      (none, [RejectReason.invalidVolume 0]) :=
  (c8_signal_rejection ⟨true, true⟩ (fun _ => none) 1 c8_signal rfl).2
    (by decide) (by decide) (by decide)

/-- Counterexample for C9 as stated: a tick with negative last price
(-1 ≤ 0) is not dropped — it creates candle buckets, changing the
builder's state. -/
theorem c9_counterexample :
    (-1 : ℚ) ≤ 0 ∧ process_tick [] (-1) ⟨0, 0, 0⟩ ≠ ([], []) := by
  constructor
  · norm_num
  · decide

/-- C9 (amended): only a tick whose last price equals 0 (Python-falsy,
also covering a missing price) is dropped by `process_tick`: the state
is unchanged for every timeframe and no candle-close event is emitted.
A tick with negative price is processed like any other (see the
counterexample). -/
theorem c9_zero_price_dropped (st : List (String × (OHLCData × DTime)))
    (now : DTime) :
    process_tick st 0 now = (st, []) := by
  simp [process_tick]

/-- C10: without a broker set, `execute_signal` rejects with reason
"No broker connection" and returns no order, regardless of the signal's
fields (no validation runs) and regardless of paper-trading mode. -/
theorem c10_no_broker (st : ExecState) (place : ℕ → Option Order)
    (ticket : ℤ) (s : EASignal) (hb : st.broker = false) :
    execute_signal st place ticket s = (none, [RejectReason.noBroker]) ∧
    RejectReason.text RejectReason.noBroker = "No broker connection" := by
  constructor
  · simp [execute_signal, hb]
  · rfl

/-- Witness for C10: even in paper-trading mode and with an invalid
volume, a broker-less service rejects with the no-broker reason. -/
theorem c10_witness :
    execute_signal ⟨false, true⟩ (fun _ => none) 1 c10_signal =
      (none, [RejectReason.noBroker]) :=
  (c10_no_broker ⟨false, true⟩ (fun _ => none) 1 c10_signal rfl).1

/-- A trailing-stop step never changes the side or the pip distance of
the record. -/
theorem trail_step_fields (d : TrailData) (sl p : ℚ) :
    (trail_step d sl p).1.is_buy = d.is_buy ∧
    (trail_step d sl p).1.pips = d.pips := by
  unfold trail_step
  split_ifs <;> simp

/-- For a long record a step never lowers the best price. -/
theorem trail_step_best_buy (d : TrailData) (sl p : ℚ) (h : d.is_buy = true) :
    d.best_price ≤ (trail_step d sl p).1.best_price := by
  simp only [trail_step, h, if_true]
  split_ifs with h1
  · exact le_of_lt h1
  · exact le_refl _

/-- For a short record a step never raises the best price. -/
theorem trail_step_best_sell (d : TrailData) (sl p : ℚ) (h : d.is_buy = false) :
    (trail_step d sl p).1.best_price ≤ d.best_price := by
  simp only [trail_step, h, Bool.false_eq_true, if_false]
  split_ifs with h1
  · exact le_of_lt h1
  · exact le_refl _

/-- A long step emits exactly the updated best price minus the pip
distance, and only when that improves (raises) the current stop. -/
theorem trail_step_emit_buy (d : TrailData) (sl p : ℚ) (h : d.is_buy = true)
    (v : ℚ) (he : (trail_step d sl p).2 = some v) :
    v = (trail_step d sl p).1.best_price - d.pips * 0.0001 ∧ sl < v := by
  by_cases h1 : d.best_price < p
  · simp only [trail_step, h, if_true, if_pos h1] at he ⊢
    split_ifs at he with h2
    obtain rfl := Option.some.inj he
    exact ⟨rfl, h2⟩
  · simp only [trail_step, h, if_true, if_neg h1] at he ⊢
    split_ifs at he with h2
    obtain rfl := Option.some.inj he
    exact ⟨rfl, h2⟩

/-- A short step emits exactly the updated best price plus the pip
distance, and only when that improves (lowers) the current stop or no
stop exists yet. -/
theorem trail_step_emit_sell (d : TrailData) (sl p : ℚ) (h : d.is_buy = false)
    (v : ℚ) (he : (trail_step d sl p).2 = some v) :
    v = (trail_step d sl p).1.best_price + d.pips * 0.0001 ∧
    (v < sl ∨ sl = 0) := by
  by_cases h1 : p < d.best_price
  · simp only [trail_step, h, Bool.false_eq_true, if_false, if_pos h1] at he ⊢
    split_ifs at he with h2
    obtain rfl := Option.some.inj he
    exact ⟨rfl, h2⟩
  · simp only [trail_step, h, Bool.false_eq_true, if_false, if_neg h1] at he ⊢
    split_ifs at he with h2
    obtain rfl := Option.some.inj he
    exact ⟨rfl, h2⟩

/-- Run specification for a long trailing stop: the best price never
decreases, every emitted stop beats the current stop and lies above the
initial best-derived candidate, and the emitted stops are
non-decreasing. -/
theorem trail_run_spec_buy (d : TrailData) (sl : ℚ) (ps : List ℚ)
    (h : d.is_buy = true) :
    d.best_price ≤ (trail_run d sl ps).1.best_price ∧
    (∀ v ∈ (trail_run d sl ps).2,
      sl < v ∧ d.best_price - d.pips * 0.0001 ≤ v) ∧
    List.Chain' (· ≤ ·) (trail_run d sl ps).2 := by
  induction ps generalizing d with
  | nil => simp [trail_run]
  | cons p t ih =>
    have hfields := trail_step_fields d sl p
    have hb1 : (trail_step d sl p).1.is_buy = true := by rw [hfields.1, h]
    have hbest := trail_step_best_buy d sl p h
    obtain ⟨ih1, ih2, ih3⟩ := ih (trail_step d sl p).1 hb1
    have hmono : d.best_price - d.pips * 0.0001 ≤
        (trail_step d sl p).1.best_price - (trail_step d sl p).1.pips * 0.0001 := by
      rw [hfields.2]
      exact sub_le_sub_right hbest _
    have hmono2 : d.best_price - d.pips * 0.0001 ≤
        (trail_step d sl p).1.best_price - d.pips * 0.0001 :=
      sub_le_sub_right hbest _
    rcases he : (trail_step d sl p).2 with _ | v0
    · refine ⟨le_trans hbest ih1, ?_, ?_⟩
      · intro v hv
        simp only [trail_run, he] at hv
        obtain ⟨hv1, hv2⟩ := ih2 v hv
        exact ⟨hv1, le_trans hmono hv2⟩
      · simp only [trail_run, he]
        exact ih3
    · obtain ⟨hv0, hslv0⟩ := trail_step_emit_buy d sl p h v0 he
      refine ⟨le_trans hbest ih1, ?_, ?_⟩
      · intro v hv
        simp only [trail_run, he, List.mem_cons] at hv
        rcases hv with rfl | hv
        · refine ⟨hslv0, ?_⟩
          rw [hv0]
          exact hmono2
        · obtain ⟨hv1, hv2⟩ := ih2 v hv
          exact ⟨hv1, le_trans hmono hv2⟩
      · simp only [trail_run, he]
        rw [List.chain'_cons']
        refine ⟨?_, ih3⟩
        intro b hb
        have hbmem := List.mem_of_mem_head? hb
        obtain ⟨_, hb2⟩ := ih2 b hbmem
        rw [hfields.2] at hb2
        rw [hv0]
        exact hb2

/-- Run specification for a short trailing stop: mirrored. -/
theorem trail_run_spec_sell (d : TrailData) (sl : ℚ) (ps : List ℚ)
    (h : d.is_buy = false) :
    (trail_run d sl ps).1.best_price ≤ d.best_price ∧
    (∀ v ∈ (trail_run d sl ps).2,
      (v < sl ∨ sl = 0) ∧ v ≤ d.best_price + d.pips * 0.0001) ∧
    List.Chain' (fun a b => b ≤ a) (trail_run d sl ps).2 := by
  induction ps generalizing d with
  | nil => simp [trail_run]
  | cons p t ih =>
    have hfields := trail_step_fields d sl p
    have hb1 : (trail_step d sl p).1.is_buy = false := by rw [hfields.1, h]
    have hbest := trail_step_best_sell d sl p h
    obtain ⟨ih1, ih2, ih3⟩ := ih (trail_step d sl p).1 hb1
    have hmono : (trail_step d sl p).1.best_price +
        (trail_step d sl p).1.pips * 0.0001 ≤
        d.best_price + d.pips * 0.0001 := by
      rw [hfields.2]
      exact add_le_add_right hbest _
    have hmono2 : (trail_step d sl p).1.best_price + d.pips * 0.0001 ≤
        d.best_price + d.pips * 0.0001 :=
      add_le_add_right hbest _
    rcases he : (trail_step d sl p).2 with _ | v0
    · refine ⟨le_trans ih1 hbest, ?_, ?_⟩
      · intro v hv
        simp only [trail_run, he] at hv
        obtain ⟨hv1, hv2⟩ := ih2 v hv
        exact ⟨hv1, le_trans hv2 hmono⟩
      · simp only [trail_run, he]
        exact ih3
    · obtain ⟨hv0, hslv0⟩ := trail_step_emit_sell d sl p h v0 he
      refine ⟨le_trans ih1 hbest, ?_, ?_⟩
      · intro v hv
        simp only [trail_run, he, List.mem_cons] at hv
        rcases hv with rfl | hv
        · refine ⟨hslv0, ?_⟩
          rw [hv0]
          exact hmono2
        · obtain ⟨hv1, hv2⟩ := ih2 v hv
          exact ⟨hv1, le_trans hv2 hmono⟩
      · simp only [trail_run, he]
        rw [List.chain'_cons']
        refine ⟨?_, ih3⟩
        intro b hb
        have hbmem := List.mem_of_mem_head? hb
        obtain ⟨_, hb2⟩ := ih2 b hbmem
        rw [hfields.2] at hb2
        rw [hv0]
        exact hb2

/-- C4: trailing-stop monotonicity.  One `update_trailing_stops` call on
a single tracked position reduces to `trail_step`; over any sequence of
calls, for a long position the recorded best price is non-decreasing and
the emitted stop values `best − pips·0.0001` form a non-decreasing
sequence, each strictly above the position's current stop; for a short
position the best price is non-increasing and the emitted values
`best + pips·0.0001` are non-increasing, each strictly below the current
stop or emitted when that stop is 0. -/
theorem c4_trailing_monotone (d : TrailData) (sl : ℚ) (ps : List ℚ) :
    (∀ (t : ℤ) (o : Order) (p : ℚ),
      update_trailing_stops [(t, d)] [(t, o)] o.symbol p =
        ([(t, (trail_step d o.sl p).1)],
          match (trail_step d o.sl p).2 with
          | some v => [(t, v)]
          | none => [])) ∧
    (d.is_buy = true →
      d.best_price ≤ (trail_run d sl ps).1.best_price ∧
      List.Chain' (· ≤ ·) (trail_run d sl ps).2 ∧
      ∀ v ∈ (trail_run d sl ps).2, sl < v) ∧
    (d.is_buy = false →
      (trail_run d sl ps).1.best_price ≤ d.best_price ∧
      List.Chain' (fun a b => b ≤ a) (trail_run d sl ps).2 ∧
      ∀ v ∈ (trail_run d sl ps).2, v < sl ∨ sl = 0) := by
  refine ⟨?_, ?_, ?_⟩
  · intro t o p
    simp only [update_trailing_stops, alookup, if_pos rfl]
    rcases he : (trail_step d o.sl p).2 with _ | v <;> simp [he]
  · intro h
    obtain ⟨h1, h2, h3⟩ := trail_run_spec_buy d sl ps h
    exact ⟨h1, h3, fun v hv => (h2 v hv).1⟩
  · intro h
    obtain ⟨h1, h2, h3⟩ := trail_run_spec_sell d sl ps h
    exact ⟨h1, h3, fun v hv => (h2 v hv).1⟩

/-- Witness for C4: a concrete long record over two favorable prices has
a non-decreasing best price and non-decreasing emitted stops. -/
theorem c4_witness :
    c4_trail.is_buy = true ∧
    c4_trail.best_price ≤ (trail_run c4_trail 0 [2, 3]).1.best_price ∧
    List.Chain' (· ≤ ·) (trail_run c4_trail 0 [2, 3]).2 := by
  have h := (c4_trailing_monotone c4_trail 0 [2, 3]).2.1 rfl
  exact ⟨rfl, h.1, h.2.1⟩

end Trading
